import Mathlib

/-!
Shallow embedding of playlist-bot's capacity-bounded append controller
(`src/playlist-bot/playlist.py`, class `SpotifyPlaylist`), together with
theorems settling the claims C1..C10 about it.

The remote music service is modelled as an environment describing, for a
single call, the playlist's paged contents at fetch time and whether
each remote mutation succeeds.  The per-playlist size cache
(`self.playlist_count`, a `collections.Counter`) is modelled as a
finite partial map whose missing keys read as 0.
-/

/-- Spotify limits playlists to 10k songs.  The source writes
`SONG_LIMIT = 1e4`, a whole-valued float; all comparisons and
subtractions it participates in are on whole numbers, so it is embedded
as the natural number 10000. -/
def SONG_LIMIT : Nat := 10000

/-- Track identifiers are opaque strings. -/
abbrev TrackId := String

/-- One page of a playlist's contents as the remote client returns it:
the track identifiers on the page in order (the source reads
`item["track"]["id"]` from `tracks["items"]`), the page's reported
`total`, and, implicitly, whether a `next` page follows (encoded below
by the page's position in the fetched chain). -/
structure Page where
  items : List TrackId
  total : Nat

/-- Environment of one `add`/`remove` call against the remote service:
`pages` is the chain of pages the remote would serve for this playlist
(head = the page returned by `user_playlist`, successive elements = the
pages reached by `spotify.next`); `removeOk`/`appendOk` say whether the
remove-tracks and add-tracks remote calls succeed, with the exception
message each would raise on failure. -/
structure RemoteEnv where
  pages : List Page
  removeOk : Bool
  removeErrMsg : String
  appendOk : Bool
  appendErrMsg : String

/-- `collections.Counter` as used for `self.playlist_count`: a mapping
whose missing keys read as 0 on lookup (without inserting), and whose
entries are created on first write. -/
abbrev Counter := String → Option Nat

/-- A fresh `Counter()`. -/
def Counter.empty : Counter := fun _ => none

/-- `c[k]` on a Counter: the stored count, or 0 when the key is absent. -/
def Counter.get (c : Counter) (k : String) : Nat := (c k).getD 0

/-- Whether the Counter holds an entry for `k` (distinguishes a stored 0
from an absent key). -/
def Counter.hasEntry (c : Counter) (k : String) : Bool := (c k).isSome

/-- `c[k] += v`: reads the count (0 when missing) and stores the sum,
creating the entry when absent — a Counter never raises here. -/
def Counter.incr (c : Counter) (k : String) (v : Nat) : Counter :=
  fun x => if x = k then some (c.get k + v) else c x

/-- What a call raises or returns: `ok` for normal return,
`typeError` for the `TypeError` Python raises when the code tries to
construct `PlaylistError` with an argument, `spotifyException` for an
uncaught remote exception propagating to the caller.

`PlaylistError` (`playlist.py` lines 25-27) subclasses nothing and
defines no `__init__`, so every `raise PlaylistError(...)` in the code
— the capacity guard's f-string and the append handler's `str(e)` —
first evaluates its argument and then fails in the constructor with
`TypeError: PlaylistError() takes no arguments`; no message-bearing
domain error ever surfaces. -/
inductive Outcome where
  | ok
  | typeError (msg : String)
  | spotifyException (msg : String)
deriving DecidableEq

/-- The message of the `TypeError` raised by `PlaylistError(...)`: the
intended playlist error message (guard text or remote append message)
is computed and then lost when the constructor rejects it. -/
def playlistErrorCtorMsg : String := "PlaylistError() takes no arguments"

/-- Result of `SpotifyPlaylist.remove`: the cache afterwards, the
outcome, the track-id lists passed to remote remove-tracks calls, and
how many full counting walks ran (0 or 1). -/
structure RemoveResult where
  playlist_count : Counter
  outcome : Outcome
  removeCalls : List (List TrackId)
  walkRuns : Nat

/-- Result of `SpotifyPlaylist.add`: as `RemoveResult`, plus the
track-id lists passed to remote add-tracks calls. -/
structure AddResult where
  playlist_count : Counter
  outcome : Outcome
  removeCalls : List (List TrackId)
  appendCalls : List (List TrackId)
  walkRuns : Nat

/-- The eviction scan loop of `remove`: `count = 0; remove = []; for
item in tracks["items"]: if count >= n: break; remove.append(id);
count += 1`.  It walks only the page it is given and stops once `n`
identifiers are collected. -/
def collectEvict : Nat → List TrackId → List TrackId
  | 0, _ => []
  | _ + 1, [] => []
  | n + 1, itm :: rest => itm :: collectEvict n rest

/-- Net effect of the counting loop `while True: playlist_count[pid] +=
tracks["total"]; if tracks["next"]: tracks = spotify.next(tracks) else:
break` — the body runs once per page of the fetched chain, so the cache
gains the sum of the pages' reported totals. -/
def walkTotal : List Page → Nat
  | [] => 0
  | p :: rest => p.total + walkTotal rest

/-- `SpotifyPlaylist.remove(playlist_id, n_tracks)`.  The fetched first
page is `env.pages.headD ⟨[], 0⟩` (the source always reads
`_playlist["tracks"]`).  Branches, in source order: eviction when the
cached count plus `n_tracks` reaches `SONG_LIMIT` (guard first, then
collect from the first page's items and issue the remote removal),
otherwise the lazy counting walk when the cached count is 0, otherwise
nothing. -/
def SpotifyPlaylist.remove (playlist_count : Counter) (playlist_id : String)
    (n_tracks : Nat) (env : RemoteEnv) : RemoveResult :=
  if SONG_LIMIT ≤ playlist_count.get playlist_id + n_tracks then
    if playlist_count.get playlist_id <
        playlist_count.get playlist_id + n_tracks - SONG_LIMIT then
      { playlist_count := playlist_count
        outcome := .typeError playlistErrorCtorMsg
        removeCalls := []
        walkRuns := 0 }
    else
      if env.removeOk then
        { playlist_count := playlist_count
          outcome := .ok
          removeCalls := [collectEvict
            (playlist_count.get playlist_id + n_tracks - SONG_LIMIT)
            (env.pages.headD { items := [], total := 0 }).items]
          walkRuns := 0 }
      else
        { playlist_count := playlist_count
          outcome := .spotifyException env.removeErrMsg
          removeCalls := [collectEvict
            (playlist_count.get playlist_id + n_tracks - SONG_LIMIT)
            (env.pages.headD { items := [], total := 0 }).items]
          walkRuns := 0 }
  else
    if playlist_count.get playlist_id = 0 then
      { playlist_count := playlist_count.incr playlist_id (walkTotal env.pages)
        outcome := .ok
        removeCalls := []
        walkRuns := 1 }
    else
      { playlist_count := playlist_count
        outcome := .ok
        removeCalls := []
        walkRuns := 0 }

/-- `SpotifyPlaylist.add(playlist_id, tracks)`: call `remove` first —
outside the `try`, so anything it raises propagates unwrapped — then
issue the remote append and bump the cached count by `len(tracks)`; a
`SpotifyException` from the append is caught, and the handler's
`raise PlaylistError(str(e))` computes `str(e)` but then raises the
constructor `TypeError`, discarding the remote message. -/
def SpotifyPlaylist.add (playlist_count : Counter) (playlist_id : String)
    (tracks : List TrackId) (env : RemoteEnv) : AddResult :=
  let r := SpotifyPlaylist.remove playlist_count playlist_id tracks.length env
  match r.outcome with
  | .ok =>
      if env.appendOk then
        { playlist_count := r.playlist_count.incr playlist_id tracks.length
          outcome := .ok
          removeCalls := r.removeCalls
          appendCalls := [tracks]
          walkRuns := r.walkRuns }
      else
        { playlist_count := r.playlist_count
          outcome := .typeError playlistErrorCtorMsg
          removeCalls := r.removeCalls
          appendCalls := [tracks]
          walkRuns := r.walkRuns }
  | e =>
      { playlist_count := r.playlist_count
        outcome := e
        removeCalls := r.removeCalls
        appendCalls := []
        walkRuns := r.walkRuns }

theorem Counter.get_incr (c : Counter) (k : String) (v : Nat) :
    (c.incr k v).get k = c.get k + v := by
  simp [Counter.get, Counter.incr]

theorem remove_guard (c : Counter) (pid : String) (n : Nat) (env : RemoteEnv)
    (h2 : c.get pid < c.get pid + n - SONG_LIMIT) :
    SpotifyPlaylist.remove c pid n env =
      { playlist_count := c, outcome := .typeError playlistErrorCtorMsg,
        removeCalls := [], walkRuns := 0 } := by
  have h1 : SONG_LIMIT ≤ c.get pid + n := by omega
  unfold SpotifyPlaylist.remove
  rw [if_pos h1, if_pos h2]

theorem remove_evict_ok (c : Counter) (pid : String) (n : Nat) (env : RemoteEnv)
    (h1 : SONG_LIMIT ≤ c.get pid + n)
    (h2 : c.get pid + n - SONG_LIMIT ≤ c.get pid)
    (hok : env.removeOk = true) :
    SpotifyPlaylist.remove c pid n env =
      { playlist_count := c, outcome := .ok,
        removeCalls := [collectEvict (c.get pid + n - SONG_LIMIT)
          (env.pages.headD { items := [], total := 0 }).items],
        walkRuns := 0 } := by
  unfold SpotifyPlaylist.remove
  rw [if_pos h1, if_neg (by omega), if_pos hok]

theorem remove_evict_fail (c : Counter) (pid : String) (n : Nat) (env : RemoteEnv)
    (h1 : SONG_LIMIT ≤ c.get pid + n)
    (h2 : c.get pid + n - SONG_LIMIT ≤ c.get pid)
    (hko : env.removeOk = false) :
    SpotifyPlaylist.remove c pid n env =
      { playlist_count := c, outcome := .spotifyException env.removeErrMsg,
        removeCalls := [collectEvict (c.get pid + n - SONG_LIMIT)
          (env.pages.headD { items := [], total := 0 }).items],
        walkRuns := 0 } := by
  unfold SpotifyPlaylist.remove
  rw [if_pos h1, if_neg (by omega), if_neg (by simp [hko])]

theorem remove_walk (c : Counter) (pid : String) (n : Nat) (env : RemoteEnv)
    (h1 : c.get pid + n < SONG_LIMIT) (h0 : c.get pid = 0) :
    SpotifyPlaylist.remove c pid n env =
      { playlist_count := c.incr pid (walkTotal env.pages), outcome := .ok,
        removeCalls := [], walkRuns := 1 } := by
  unfold SpotifyPlaylist.remove
  rw [if_neg (by omega), if_pos h0]

theorem remove_nowalk (c : Counter) (pid : String) (n : Nat) (env : RemoteEnv)
    (h1 : c.get pid + n < SONG_LIMIT) (h0 : c.get pid ≠ 0) :
    SpotifyPlaylist.remove c pid n env =
      { playlist_count := c, outcome := .ok, removeCalls := [], walkRuns := 0 } := by
  unfold SpotifyPlaylist.remove
  rw [if_neg (by omega), if_neg h0]

/-- Claim C5 (code divergence, proved for every such input): when
`current + n - SONG_LIMIT > current` (the batch cannot fit even after
evicting everything currently on the playlist), `add` does fail before
issuing any remote removal or append call and leaves the cache exactly
as it was — but the failure the caller sees is the constructor
`TypeError` from `PlaylistError(f"...")`, not the claimed
CapacityExceeded domain error (and it is indistinguishable from the
append-failure `TypeError`). -/
theorem c5_guard_raises_ctor_typeerror_no_mutation (c : Counter) (pid : String)
    (tracks : List TrackId) (env : RemoteEnv)
    (h : Counter.get c pid < Counter.get c pid + tracks.length - SONG_LIMIT) :
    (SpotifyPlaylist.add c pid tracks env).outcome
        = .typeError playlistErrorCtorMsg ∧
    (SpotifyPlaylist.add c pid tracks env).removeCalls = [] ∧
    (SpotifyPlaylist.add c pid tracks env).appendCalls = [] ∧
    (SpotifyPlaylist.add c pid tracks env).playlist_count = c := by
  have hadd : SpotifyPlaylist.add c pid tracks env =
      { playlist_count := c, outcome := .typeError playlistErrorCtorMsg,
        removeCalls := [], appendCalls := [], walkRuns := 0 } := by
    unfold SpotifyPlaylist.add
    rw [remove_guard c pid tracks.length env h]
  rw [hadd]
  exact ⟨rfl, rfl, rfl, rfl⟩

/-- Claim C5, witness: a playlist cached at 2 with an incoming batch of
10001 tracks trips the guard. -/
theorem c5_guard_raises_ctor_typeerror_no_mutation_witness :
    (Counter.get (Counter.empty.incr "p" 2) "p" <
      Counter.get (Counter.empty.incr "p" 2) "p"
        + (List.replicate 10001 "t").length - SONG_LIMIT) ∧
    ((SpotifyPlaylist.add (Counter.empty.incr "p" 2) "p"
        (List.replicate 10001 "t")
        { pages := [{ items := ["x1"], total := 1 }], removeOk := true,
          removeErrMsg := "r", appendOk := true, appendErrMsg := "a" }).outcome
      = .typeError playlistErrorCtorMsg ∧
     (SpotifyPlaylist.add (Counter.empty.incr "p" 2) "p"
        (List.replicate 10001 "t")
        { pages := [{ items := ["x1"], total := 1 }], removeOk := true,
          removeErrMsg := "r", appendOk := true, appendErrMsg := "a" }).removeCalls = [] ∧
     (SpotifyPlaylist.add (Counter.empty.incr "p" 2) "p"
        (List.replicate 10001 "t")
        { pages := [{ items := ["x1"], total := 1 }], removeOk := true,
          removeErrMsg := "r", appendOk := true, appendErrMsg := "a" }).appendCalls = [] ∧
     (SpotifyPlaylist.add (Counter.empty.incr "p" 2) "p"
        (List.replicate 10001 "t")
        { pages := [{ items := ["x1"], total := 1 }], removeOk := true,
          removeErrMsg := "r", appendOk := true, appendErrMsg := "a" }).playlist_count
       = Counter.empty.incr "p" 2) :=
  ⟨by simp only [List.length_replicate]; decide,
   c5_guard_raises_ctor_typeerror_no_mutation (Counter.empty.incr "p" 2) "p"
     (List.replicate 10001 "t")
     { pages := [{ items := ["x1"], total := 1 }], removeOk := true,
       removeErrMsg := "r", appendOk := true, appendErrMsg := "a" }
     (by simp only [List.length_replicate]; decide)⟩

/-- Claim C9: when the eviction branch is entered (`SONG_LIMIT ≤
current + n`, guard passes) and the remote removal call fails, the
failure propagates to the caller (as the uncaught remote exception) and
the cache is left exactly in its pre-operation state; no append call is
issued. -/
theorem c9_removal_failure_propagates_cache_pristine (c : Counter) (pid : String)
    (tracks : List TrackId) (env : RemoteEnv)
    (h1 : SONG_LIMIT ≤ Counter.get c pid + tracks.length)
    (h2 : Counter.get c pid + tracks.length - SONG_LIMIT ≤ Counter.get c pid)
    (hko : env.removeOk = false) :
    (SpotifyPlaylist.add c pid tracks env).outcome
        = .spotifyException env.removeErrMsg ∧
    (SpotifyPlaylist.add c pid tracks env).playlist_count = c ∧
    (SpotifyPlaylist.add c pid tracks env).appendCalls = [] := by
  have hadd : SpotifyPlaylist.add c pid tracks env =
      { playlist_count := c, outcome := .spotifyException env.removeErrMsg,
        removeCalls := [collectEvict (Counter.get c pid + tracks.length - SONG_LIMIT)
          (env.pages.headD { items := [], total := 0 }).items],
        appendCalls := [], walkRuns := 0 } := by
    unfold SpotifyPlaylist.add
    rw [remove_evict_fail c pid tracks.length env h1 h2 hko]
  rw [hadd]
  exact ⟨rfl, rfl, rfl⟩

/-- Claim C9, witness: playlist cached at 9999, batch of 2, removal
fails; the exception surfaces and the count stays 9999. -/
theorem c9_removal_failure_propagates_cache_pristine_witness :
    (SONG_LIMIT ≤ Counter.get (Counter.empty.incr "p" 9999) "p"
        + (["a1", "a2"] : List TrackId).length) ∧
    (Counter.get (Counter.empty.incr "p" 9999) "p"
        + (["a1", "a2"] : List TrackId).length - SONG_LIMIT
      ≤ Counter.get (Counter.empty.incr "p" 9999) "p") ∧
    ((SpotifyPlaylist.add (Counter.empty.incr "p" 9999) "p" ["a1", "a2"]
        { pages := [{ items := ["x1", "x2"], total := 2 }], removeOk := false,
          removeErrMsg := "boom", appendOk := true, appendErrMsg := "a" }).outcome
      = .spotifyException "boom" ∧
     (SpotifyPlaylist.add (Counter.empty.incr "p" 9999) "p" ["a1", "a2"]
        { pages := [{ items := ["x1", "x2"], total := 2 }], removeOk := false,
          removeErrMsg := "boom", appendOk := true, appendErrMsg := "a" }).playlist_count
      = Counter.empty.incr "p" 9999 ∧
     (SpotifyPlaylist.add (Counter.empty.incr "p" 9999) "p" ["a1", "a2"]
        { pages := [{ items := ["x1", "x2"], total := 2 }], removeOk := false,
          removeErrMsg := "boom", appendOk := true, appendErrMsg := "a" }).appendCalls
      = []) :=
  ⟨by decide, by decide,
   c9_removal_failure_propagates_cache_pristine (Counter.empty.incr "p" 9999) "p"
     ["a1", "a2"]
     { pages := [{ items := ["x1", "x2"], total := 2 }], removeOk := false,
       removeErrMsg := "boom", appendOk := true, appendErrMsg := "a" }
     (by decide) (by decide) rfl⟩

/-- Claim C10: when the cached count plus the batch size equals
SONG_LIMIT exactly, the eviction branch runs with excess 0 — a remote
remove-tracks call is still issued, carrying an empty identifier list —
and the lazy counting walk is skipped (even for an untracked playlist,
whose cached count reads 0). -/
theorem c10_exact_fit_empty_eviction_no_walk (c : Counter) (pid : String)
    (tracks : List TrackId) (env : RemoteEnv)
    (h : Counter.get c pid + tracks.length = SONG_LIMIT) :
    (SpotifyPlaylist.add c pid tracks env).removeCalls = [[]] ∧
    (SpotifyPlaylist.add c pid tracks env).walkRuns = 0 := by
  have h1 : SONG_LIMIT ≤ Counter.get c pid + tracks.length := by omega
  have h2 : Counter.get c pid + tracks.length - SONG_LIMIT ≤ Counter.get c pid := by
    omega
  have hzero : Counter.get c pid + tracks.length - SONG_LIMIT = 0 := by omega
  have hcoll : collectEvict (Counter.get c pid + tracks.length - SONG_LIMIT)
      (env.pages.headD { items := [], total := 0 }).items = [] := by
    rw [hzero]
    rfl
  cases hro : env.removeOk
  · have hadd : SpotifyPlaylist.add c pid tracks env =
        { playlist_count := c, outcome := .spotifyException env.removeErrMsg,
          removeCalls := [collectEvict (Counter.get c pid + tracks.length - SONG_LIMIT)
            (env.pages.headD { items := [], total := 0 }).items],
          appendCalls := [], walkRuns := 0 } := by
      unfold SpotifyPlaylist.add
      rw [remove_evict_fail c pid tracks.length env h1 h2 hro]
    rw [hadd, hcoll]
    exact ⟨rfl, rfl⟩
  · have hrem := remove_evict_ok c pid tracks.length env h1 h2 hro
    cases hap : env.appendOk
    · have hadd : SpotifyPlaylist.add c pid tracks env =
          { playlist_count := c, outcome := .typeError playlistErrorCtorMsg,
            removeCalls := [collectEvict (Counter.get c pid + tracks.length - SONG_LIMIT)
              (env.pages.headD { items := [], total := 0 }).items],
            appendCalls := [tracks], walkRuns := 0 } := by
        unfold SpotifyPlaylist.add
        rw [hrem, hap]
        rfl
      rw [hadd, hcoll]
      exact ⟨rfl, rfl⟩
    · have hadd : SpotifyPlaylist.add c pid tracks env =
          { playlist_count := c.incr pid tracks.length, outcome := .ok,
            removeCalls := [collectEvict (Counter.get c pid + tracks.length - SONG_LIMIT)
              (env.pages.headD { items := [], total := 0 }).items],
            appendCalls := [tracks], walkRuns := 0 } := by
        unfold SpotifyPlaylist.add
        rw [hrem, hap]
        rfl
      rw [hadd, hcoll]
      exact ⟨rfl, rfl⟩

/-- Claim C10, witness: a playlist cached at 9998 receiving 2 tracks
(total exactly 10000) issues a removal with the empty list and skips
the walk. -/
theorem c10_exact_fit_empty_eviction_no_walk_witness :
    (Counter.get (Counter.empty.incr "p" 9998) "p"
        + (["a1", "a2"] : List TrackId).length = SONG_LIMIT) ∧
    ((SpotifyPlaylist.add (Counter.empty.incr "p" 9998) "p" ["a1", "a2"]
        { pages := [{ items := ["x1", "x2"], total := 2 }], removeOk := true,
          removeErrMsg := "r", appendOk := true, appendErrMsg := "a" }).removeCalls
      = [[]] ∧
     (SpotifyPlaylist.add (Counter.empty.incr "p" 9998) "p" ["a1", "a2"]
        { pages := [{ items := ["x1", "x2"], total := 2 }], removeOk := true,
          removeErrMsg := "r", appendOk := true, appendErrMsg := "a" }).walkRuns
      = 0) :=
  ⟨by decide,
   c10_exact_fit_empty_eviction_no_walk (Counter.empty.incr "p" 9998) "p"
     ["a1", "a2"]
     { pages := [{ items := ["x1", "x2"], total := 2 }], removeOk := true,
       removeErrMsg := "r", appendOk := true, appendErrMsg := "a" }
     (by decide)⟩

/-- Claim C1 (code divergence, evaluated): starting from a cached count
of 9999 (≤ SONG_LIMIT), one fully successful `add` of 2 tracks leaves
the tracked count at 10001, strictly above SONG_LIMIT — the eviction
branch removes a track remotely but never subtracts it from the cache,
so the controller's own bookkeeping exceeds the capacity. -/
theorem c1_successful_add_drives_cache_past_limit :
    (SpotifyPlaylist.add (Counter.empty.incr "p" 9999) "p" ["a1", "a2"]
      { pages := [{ items := ["x1", "x2", "x3"], total := 3 }]
        removeOk := true, removeErrMsg := "r"
        appendOk := true, appendErrMsg := "a" }).outcome = .ok ∧
    Counter.get (SpotifyPlaylist.add (Counter.empty.incr "p" 9999) "p" ["a1", "a2"]
      { pages := [{ items := ["x1", "x2", "x3"], total := 3 }]
        removeOk := true, removeErrMsg := "r"
        appendOk := true, appendErrMsg := "a" }).playlist_count "p" = 10001 ∧
    SONG_LIMIT < 10001 := by
  decide

/-- Claim C2 (code divergence, evaluated): cached count 9999, batch of
2, eviction (1 track) succeeds, append raises
`SpotifyException("status 502")`.  The cache stays at 9999 — not the
claimed `current - excess = 9998`, since the eviction's effect is never
recorded — and the caller sees the constructor `TypeError` from
`PlaylistError(str(e))`, not a domain error wrapping "status 502": the
remote message is computed and then lost. -/
theorem c2_append_failure_cache_keeps_full_current :
    (SpotifyPlaylist.add (Counter.empty.incr "p" 9999) "p" ["a1", "a2"]
      { pages := [{ items := ["x1", "x2", "x3"], total := 3 }]
        removeOk := true, removeErrMsg := "r"
        appendOk := false, appendErrMsg := "status 502" }).outcome
      = .typeError playlistErrorCtorMsg ∧
    (SpotifyPlaylist.add (Counter.empty.incr "p" 9999) "p" ["a1", "a2"]
      { pages := [{ items := ["x1", "x2", "x3"], total := 3 }]
        removeOk := true, removeErrMsg := "r"
        appendOk := false, appendErrMsg := "status 502" }).removeCalls = [["x1"]] ∧
    Counter.get (SpotifyPlaylist.add (Counter.empty.incr "p" 9999) "p" ["a1", "a2"]
      { pages := [{ items := ["x1", "x2", "x3"], total := 3 }]
        removeOk := true, removeErrMsg := "r"
        appendOk := false, appendErrMsg := "status 502" }).playlist_count "p" = 9999 ∧
    (9999 : Nat) ≠ 9999 - 1 := by
  decide

/-- Claim C3 (code divergence, evaluated): cached count 9998, fully
successful `add` of 3 tracks with eviction (excess 1).  The new cached
count is 10001 = current + n, not the claimed
`current - excess + n = 10000`. -/
theorem c3_successful_evicting_add_cache_is_current_plus_n :
    (SpotifyPlaylist.add (Counter.empty.incr "p" 9998) "p" ["a1", "a2", "a3"]
      { pages := [{ items := ["x1", "x2", "x3"], total := 3 }]
        removeOk := true, removeErrMsg := "r"
        appendOk := true, appendErrMsg := "a" }).outcome = .ok ∧
    (SpotifyPlaylist.add (Counter.empty.incr "p" 9998) "p" ["a1", "a2", "a3"]
      { pages := [{ items := ["x1", "x2", "x3"], total := 3 }]
        removeOk := true, removeErrMsg := "r"
        appendOk := true, appendErrMsg := "a" }).removeCalls = [["x1"]] ∧
    Counter.get (SpotifyPlaylist.add (Counter.empty.incr "p" 9998) "p" ["a1", "a2", "a3"]
      { pages := [{ items := ["x1", "x2", "x3"], total := 3 }]
        removeOk := true, removeErrMsg := "r"
        appendOk := true, appendErrMsg := "a" }).playlist_count "p" = 10001 ∧
    (10001 : Nat) ≠ 9998 - 1 + 3 := by
  decide

/-- Claim C4 (code divergence, evaluated): cached count 9999, batch of
4, so excess = 3; the remote serves a first page of 2 items with a
second page available.  The eviction scan never follows pagination: the
removal call carries only the 2 first-page identifiers, not the first 3
identifiers in traversal order, and its size is 2 ≠ excess. -/
theorem c4_eviction_scan_stops_at_first_page :
    (SpotifyPlaylist.add (Counter.empty.incr "p" 9999) "p"
      ["a1", "a2", "a3", "a4"]
      { pages := [{ items := ["x1", "x2"], total := 2 },
                  { items := ["x3", "x4"], total := 2 }]
        removeOk := true, removeErrMsg := "r"
        appendOk := true, appendErrMsg := "a" }).removeCalls = [["x1", "x2"]] ∧
    (["x1", "x2"] : List TrackId).length ≠ 3 ∧
    (["x1", "x2"] : List TrackId) ≠ ["x1", "x2", "x3"] := by
  decide

/-- Claim C6 (code divergence, evaluated): an `add` of 10000 tracks
against an untracked playlist (whose remote contents hold 5 tracks over
one page).  The eviction decision is made from the Counter default 0 —
the branch is entered with excess 0 and succeeds — and no counting walk
is ever performed, contradicting the claimed refresh-then-decide
order. -/
theorem c6_untracked_eviction_uses_default_and_skips_walk :
    (SpotifyPlaylist.add Counter.empty "p" (List.replicate 10000 "t")
      { pages := [{ items := ["x1", "x2", "x3", "x4", "x5"], total := 5 }]
        removeOk := true, removeErrMsg := "r"
        appendOk := true, appendErrMsg := "a" }).walkRuns = 0 ∧
    (SpotifyPlaylist.add Counter.empty "p" (List.replicate 10000 "t")
      { pages := [{ items := ["x1", "x2", "x3", "x4", "x5"], total := 5 }]
        removeOk := true, removeErrMsg := "r"
        appendOk := true, appendErrMsg := "a" }).removeCalls = [[]] ∧
    (SpotifyPlaylist.add Counter.empty "p" (List.replicate 10000 "t")
      { pages := [{ items := ["x1", "x2", "x3", "x4", "x5"], total := 5 }]
        removeOk := true, removeErrMsg := "r"
        appendOk := true, appendErrMsg := "a" }).outcome = .ok := by
  have h : Counter.get Counter.empty "p" + (List.replicate 10000 "t").length
      = SONG_LIMIT := by
    simp only [List.length_replicate]
    decide
  have h1 : SONG_LIMIT ≤ Counter.get Counter.empty "p"
      + (List.replicate 10000 "t").length := by omega
  have h2 : Counter.get Counter.empty "p" + (List.replicate 10000 "t").length
      - SONG_LIMIT ≤ Counter.get Counter.empty "p" := by omega
  have hrem := remove_evict_ok Counter.empty "p" (List.replicate 10000 "t").length
    { pages := [{ items := ["x1", "x2", "x3", "x4", "x5"], total := 5 }]
      removeOk := true, removeErrMsg := "r"
      appendOk := true, appendErrMsg := "a" } h1 h2 rfl
  have hzero : Counter.get Counter.empty "p" + (List.replicate 10000 "t").length
      - SONG_LIMIT = 0 := by omega
  rw [hzero] at hrem
  have hadd : SpotifyPlaylist.add Counter.empty "p" (List.replicate 10000 "t")
      { pages := [{ items := ["x1", "x2", "x3", "x4", "x5"], total := 5 }]
        removeOk := true, removeErrMsg := "r"
        appendOk := true, appendErrMsg := "a" } =
      { playlist_count := Counter.empty.incr "p" (List.replicate 10000 "t").length
        outcome := .ok
        removeCalls := [[]]
        appendCalls := [List.replicate 10000 "t"]
        walkRuns := 0 } := by
    unfold SpotifyPlaylist.add
    rw [hrem]
    rfl
  rw [hadd]
  exact ⟨rfl, rfl, rfl⟩

/-- Claim C7, counterexample: against an empty remote playlist, a first
`add` performs the counting walk and establishes the size (an entry is
created, holding 0), yet the next `add` against the same playlist
performs the walk again — the code re-walks whenever the cached count
reads 0, so the walk is not at-most-once per process lifetime. -/
theorem c7_walk_repeats_after_size_established :
    (SpotifyPlaylist.add Counter.empty "p" []
      { pages := [{ items := [], total := 0 }], removeOk := true,
        removeErrMsg := "r", appendOk := true, appendErrMsg := "a" }).walkRuns = 1 ∧
    Counter.hasEntry (SpotifyPlaylist.add Counter.empty "p" []
      { pages := [{ items := [], total := 0 }], removeOk := true,
        removeErrMsg := "r", appendOk := true, appendErrMsg := "a" }).playlist_count
      "p" = true ∧
    (SpotifyPlaylist.add
      (SpotifyPlaylist.add Counter.empty "p" []
        { pages := [{ items := [], total := 0 }], removeOk := true,
          removeErrMsg := "r", appendOk := true, appendErrMsg := "a" }).playlist_count
      "p" []
      { pages := [{ items := [], total := 0 }], removeOk := true,
        removeErrMsg := "r", appendOk := true, appendErrMsg := "a" }).walkRuns = 1 := by
  decide

/-- Claim C7 as amended: the counting walk is skipped exactly when the
cached count reads nonzero, so once a NONZERO size has been established
no subsequent `add` walks again — and the cached count stays nonzero
afterwards (the cache is only ever incremented), so this persists for
the rest of the process lifetime.  A playlist whose established size is
0 is re-walked. -/
theorem c7_no_walk_once_count_positive (c : Counter) (pid : String)
    (tracks : List TrackId) (env : RemoteEnv)
    (h : 0 < Counter.get c pid) :
    (SpotifyPlaylist.add c pid tracks env).walkRuns = 0 ∧
    0 < Counter.get (SpotifyPlaylist.add c pid tracks env).playlist_count pid := by
  by_cases h1 : SONG_LIMIT ≤ Counter.get c pid + tracks.length
  · by_cases h2 : Counter.get c pid <
        Counter.get c pid + tracks.length - SONG_LIMIT
    · have hadd : SpotifyPlaylist.add c pid tracks env =
          { playlist_count := c, outcome := .typeError playlistErrorCtorMsg,
            removeCalls := [], appendCalls := [], walkRuns := 0 } := by
        unfold SpotifyPlaylist.add
        rw [remove_guard c pid tracks.length env h2]
      rw [hadd]
      exact ⟨rfl, h⟩
    · cases hro : env.removeOk
      · have hadd : SpotifyPlaylist.add c pid tracks env =
            { playlist_count := c, outcome := .spotifyException env.removeErrMsg,
              removeCalls := [collectEvict
                (Counter.get c pid + tracks.length - SONG_LIMIT)
                (env.pages.headD { items := [], total := 0 }).items],
              appendCalls := [], walkRuns := 0 } := by
          unfold SpotifyPlaylist.add
          rw [remove_evict_fail c pid tracks.length env h1 (by omega) hro]
        rw [hadd]
        exact ⟨rfl, h⟩
      · have hrem := remove_evict_ok c pid tracks.length env h1 (by omega) hro
        cases hap : env.appendOk
        · have hadd : SpotifyPlaylist.add c pid tracks env =
              { playlist_count := c, outcome := .typeError playlistErrorCtorMsg,
                removeCalls := [collectEvict
                  (Counter.get c pid + tracks.length - SONG_LIMIT)
                  (env.pages.headD { items := [], total := 0 }).items],
                appendCalls := [tracks], walkRuns := 0 } := by
            unfold SpotifyPlaylist.add
            rw [hrem, hap]
            rfl
          rw [hadd]
          exact ⟨rfl, h⟩
        · have hadd : SpotifyPlaylist.add c pid tracks env =
              { playlist_count := c.incr pid tracks.length, outcome := .ok,
                removeCalls := [collectEvict
                  (Counter.get c pid + tracks.length - SONG_LIMIT)
                  (env.pages.headD { items := [], total := 0 }).items],
                appendCalls := [tracks], walkRuns := 0 } := by
            unfold SpotifyPlaylist.add
            rw [hrem, hap]
            rfl
          rw [hadd]
          refine ⟨rfl, ?_⟩
          rw [Counter.get_incr]
          omega
  · have h0 : Counter.get c pid ≠ 0 := by omega
    have hrem := remove_nowalk c pid tracks.length env (by omega) h0
    cases hap : env.appendOk
    · have hadd : SpotifyPlaylist.add c pid tracks env =
          { playlist_count := c, outcome := .typeError playlistErrorCtorMsg,
            removeCalls := [], appendCalls := [tracks], walkRuns := 0 } := by
        unfold SpotifyPlaylist.add
        rw [hrem, hap]
        rfl
      rw [hadd]
      exact ⟨rfl, h⟩
    · have hadd : SpotifyPlaylist.add c pid tracks env =
          { playlist_count := c.incr pid tracks.length, outcome := .ok,
            removeCalls := [], appendCalls := [tracks], walkRuns := 0 } := by
        unfold SpotifyPlaylist.add
        rw [hrem, hap]
        rfl
      rw [hadd]
      refine ⟨rfl, ?_⟩
      rw [Counter.get_incr]
      omega

/-- Claim C7 as amended, witness: a playlist cached at 5 receiving one
track performs no walk and keeps a positive count. -/
theorem c7_no_walk_once_count_positive_witness :
    (0 < Counter.get (Counter.empty.incr "p" 5) "p") ∧
    ((SpotifyPlaylist.add (Counter.empty.incr "p" 5) "p" ["a1"]
        { pages := [{ items := ["x1"], total := 1 }], removeOk := true,
          removeErrMsg := "r", appendOk := true, appendErrMsg := "a" }).walkRuns = 0 ∧
     0 < Counter.get (SpotifyPlaylist.add (Counter.empty.incr "p" 5) "p" ["a1"]
        { pages := [{ items := ["x1"], total := 1 }], removeOk := true,
          removeErrMsg := "r", appendOk := true, appendErrMsg := "a" }).playlist_count
        "p") :=
  ⟨by decide,
   c7_no_walk_once_count_positive (Counter.empty.incr "p" 5) "p" ["a1"]
     { pages := [{ items := ["x1"], total := 1 }], removeOk := true,
       removeErrMsg := "r", appendOk := true, appendErrMsg := "a" }
     (by decide)⟩

/-- Claim C8, counterexample: the tracker's adjustment (`playlist_count
[pid] += delta`, a `collections.Counter` write) applied to a playlist
with no cached entry raises nothing — it silently creates the entry
with the delta as its value. -/
theorem c8_adjust_untracked_raises_nothing :
    Counter.hasEntry Counter.empty "p" = false ∧
    Counter.hasEntry (Counter.empty.incr "p" 5) "p" = true ∧
    Counter.get (Counter.empty.incr "p" 5) "p" = 5 := by
  decide

/-- Claim C8 as amended: adjusting an untracked playlist silently
creates its cache entry, initialised to the delta (the missing key
reads as 0); no internal-consistency error exists in the code. -/
theorem c8_adjust_untracked_creates_entry (c : Counter) (pid : String) (delta : Nat)
    (h : Counter.hasEntry c pid = false) :
    Counter.hasEntry (c.incr pid delta) pid = true ∧
    Counter.get (c.incr pid delta) pid = delta := by
  have hc : c pid = none := by
    cases hcp : c pid with
    | none => rfl
    | some v => simp [Counter.hasEntry, hcp] at h
  constructor
  · simp [Counter.hasEntry, Counter.incr]
  · simp [Counter.get, Counter.incr, hc]

/-- Claim C8 as amended, witness: adjusting the fresh tracker by 7 for
playlist q creates the entry holding 7. -/
theorem c8_adjust_untracked_creates_entry_witness :
    (Counter.hasEntry Counter.empty "q" = false) ∧
    (Counter.hasEntry (Counter.empty.incr "q" 7) "q" = true ∧
     Counter.get (Counter.empty.incr "q" 7) "q" = 7) :=
  ⟨by decide, c8_adjust_untracked_creates_entry Counter.empty "q" 7 (by decide)⟩
